import Mathlib

/-!
Verification of the relay-connectivity core (src/ndk/src/relay/connectivity.ts)
and the NIP-46 remote-signing session (src/ndk/src/signers/nip46/index.ts) of
the ndk repository, as a shallow embedding in Lean 4.

Conventions of the embedding:
- JavaScript numbers that hold timestamps and millisecond delays are modelled
  as integers; connection-session durations as exact rationals.
- Promises are modelled by an explicit state (pending / resolved / rejected);
  invoking a resolver settles the promise only if it is still pending, as the
  ECMAScript promise-resolution functions do.
- Methods that mutate the connection become functions from a state record to a
  state record plus a list of observable effects (emitted events, scheduled
  timers, frames handed to the socket).
- A thrown-and-caught JavaScript exception is an Except.error of the inner
  function, converted by the catching wrapper into a log effect.
-/

namespace NDK

/-- Connection status enum (NDKRelayStatus, imported by connectivity.ts from
the relay index module, values as listed in the specification). -/
inductive NDKRelayStatus where
  | DISCONNECTED
  | CONNECTING
  | RECONNECTING
  | CONNECTED
  | AUTHENTICATING
  | AUTHENTICATED
  | DISCONNECTING
  | FLAPPING
deriving DecidableEq, Repr

/-- WebSocket readyState values. -/
inductive WsReadyState where
  | CONNECTING
  | OPEN
  | CLOSING
  | CLOSED
deriving DecidableEq, Repr

/-- Outcome of NDKRelayConnectivity.send: either the message is handed to
ws.send, or the method throws. The source has no queueing path at all, which
the two-constructor outcome type records. -/
inductive SendOutcome where
  | sent (message : String)
  | threw (errMessage : String)
deriving DecidableEq, Repr

/-- NDKRelayConnectivity.send (connectivity.ts lines 433-440): transmit when
the status is CONNECTED and the socket exists with readyState OPEN, otherwise
throw the NotConnected error. -/
def send (status : NDKRelayStatus) (ws : Option WsReadyState) (message : String) :
    SendOutcome :=
  if status = NDKRelayStatus.CONNECTED ∧ ws = some WsReadyState.OPEN then
    SendOutcome.sent message
  else
    SendOutcome.threw "Attempting to send on a closed relay connection"

/-- Sum of a list of rationals the way Array.prototype.reduce with seed 0
computes it (a left fold). -/
def listSum (l : List ℚ) : ℚ := l.foldl (· + ·) 0

/-- Population variance as computed inside NDKRelayConnectivity.isFlapping
(connectivity.ts lines 333-338): mean of the durations, then the mean of the
squared deviations. For the empty list Lean's convention 0 / 0 = 0 applies,
where IEEE arithmetic gives NaN; isFlapping below compensates with an explicit
empty-list branch. -/
def varianceOf (durations : List ℚ) : ℚ :=
  let sum := listSum durations
  let avg := sum / (durations.length : ℚ)
  (listSum (durations.map (fun x => (x - avg) ^ 2))) / (durations.length : ℚ)

/-- NDKRelayConnectivity.isFlapping (connectivity.ts lines 329-342). The
source computes stdDev = Math.sqrt(variance) and tests stdDev < 1000; over
the nonnegative variance this is equivalent to variance < 1000000, which is
how the test is embedded to stay inside ℚ (the equivalence is proved through
Real.sqrt in the claim theorem). The empty-list branch mirrors the source,
where durations of length 0 pass the modulo test but produce variance NaN
and Math.sqrt(NaN) < 1000 evaluates to false. -/
def isFlapping (durations : List ℚ) : Bool :=
  if durations.length % 3 ≠ 0 then false
  else if durations.isEmpty then false
  else decide (varianceOf durations < 1000000)

/-- Helper: a left fold of addition starting at a is a plus the list sum. -/
theorem listSum_foldl_eq (a : ℚ) (l : List ℚ) :
    l.foldl (· + ·) a = a + l.sum := by
  induction l generalizing a with
  | nil => simp
  | cons x xs ih => simp [List.foldl_cons, ih (a + x), List.sum_cons]; ring

/-- Helper: listSum agrees with List.sum. -/
theorem listSum_eq_sum (l : List ℚ) : listSum l = l.sum := by
  simp [listSum, listSum_foldl_eq]

/-- C2. For every connection state and every message, send transmits the
message on the WebSocket if and only if the status is CONNECTED and the
socket's readyState is OPEN; in every other state it throws the NotConnected
error and transmits nothing, and there is no queueing path: the outcome is
exhaustively either the transmission or the throw. -/
theorem c2_send_contract :
    ∀ (status : NDKRelayStatus) (ws : Option WsReadyState) (message : String),
      (send status ws message = SendOutcome.sent message ↔
        (status = NDKRelayStatus.CONNECTED ∧ ws = some WsReadyState.OPEN)) ∧
      (¬(status = NDKRelayStatus.CONNECTED ∧ ws = some WsReadyState.OPEN) →
        send status ws message =
          SendOutcome.threw "Attempting to send on a closed relay connection") := by
  intro status ws message
  constructor
  · constructor
    · intro h
      by_contra hc
      simp [send, hc] at h
    · intro h
      simp [send, h]
  · intro h
    simp [send, h]

/-- Witness for C2: a disconnected relay with no socket throws and a connected
relay with an open socket transmits. -/
theorem c2_send_contract_witness :
    send NDKRelayStatus.DISCONNECTED none "frame" =
      SendOutcome.threw "Attempting to send on a closed relay connection" ∧
    send NDKRelayStatus.CONNECTED (some WsReadyState.OPEN) "frame" =
      SendOutcome.sent "frame" :=
  ⟨(c2_send_contract NDKRelayStatus.DISCONNECTED none "frame").2 (by simp),
   (c2_send_contract NDKRelayStatus.CONNECTED (some WsReadyState.OPEN) "frame").1.2
     ⟨rfl, rfl⟩⟩

/-- C3. isFlapping returns false whenever the durations list's length is not a
positive multiple of 3; when the length is a positive multiple of 3 it returns
true exactly when the population standard deviation of the durations is
strictly below 1000 ms; and on the concrete input [500, 600, 550] it returns
true. -/
theorem c3_isFlapping_spec :
    (∀ ds : List ℚ, ¬(0 < ds.length ∧ ds.length % 3 = 0) → isFlapping ds = false) ∧
    (∀ ds : List ℚ, 0 < ds.length → ds.length % 3 = 0 →
      (isFlapping ds = true ↔ Real.sqrt ((varianceOf ds : ℚ) : ℝ) < 1000)) ∧
    isFlapping [500, 600, 550] = true := by
  refine ⟨?_, ?_, ?_⟩
  · intro ds h
    by_cases h3 : ds.length % 3 = 0
    · have hlen : ds.length = 0 := by
        by_contra hne
        exact h ⟨Nat.pos_of_ne_zero hne, h3⟩
      have : ds = [] := List.length_eq_zero.mp hlen
      simp [isFlapping, this]
    · simp [isFlapping, h3]
  · intro ds hpos h3
    have hne : ¬ds.isEmpty := by
      cases ds with
      | nil => simp at hpos
      | cons a l => simp
    have hiff : Real.sqrt ((varianceOf ds : ℚ) : ℝ) < 1000 ↔
        ((varianceOf ds : ℚ) : ℝ) < 1000 ^ 2 :=
      Real.sqrt_lt' (by norm_num)
    have hcast : ((varianceOf ds : ℚ) : ℝ) < 1000 ^ 2 ↔ varianceOf ds < 1000000 := by
      rw [show ((1000 : ℝ) ^ 2) = ((1000000 : ℚ) : ℝ) by norm_num]
      exact Rat.cast_lt
    have hrw : isFlapping ds = decide (varianceOf ds < 1000000) := by
      simp [isFlapping, h3, hne]
    rw [hrw, decide_eq_true_eq]
    exact (hiff.trans hcast).symm
  · have h : varianceOf [500, 600, 550] = 5000 / 3 := by
      norm_num [varianceOf, listSum_eq_sum]
    simp [isFlapping, h]
    norm_num

/-- Witness for C3: a two-element durations list, whose length is not a
multiple of 3, is classified as not flapping. -/
theorem c3_isFlapping_spec_witness : isFlapping [1, 2] = false :=
  c3_isFlapping_spec.1 [1, 2] (by decide)

/-- Connection state, restricted to the fields that the lifecycle and
reconnection methods of NDKRelayConnectivity read or write. connectedAt is
the private class field of that name (declared on line 28 and read on lines
392-393); statsConnectedAt is the separate field _connectionStats.connectedAt
that updateConnectionStats maintains. reconnectTimeoutPending records whether
this.reconnectTimeout currently holds a live timer. -/
structure ConnState where
  status : NDKRelayStatus
  reconnectTimeoutPending : Bool
  attempts : ℕ
  success : ℕ
  durations : List ℚ
  statsConnectedAt : Option ℤ
  connectedAt : Option ℤ
  nextReconnectAt : Option ℤ
deriving DecidableEq, Repr

/-- Events emitted on the ndkRelay emitter that the lifecycle methods fire. -/
inductive RelayEvent where
  | flappingEmit
  | delayedConnect (delayMs : ℤ)
  | disconnectEmit
deriving DecidableEq, Repr

/-- Result of a lifecycle step: the new state, the events emitted during the
step, and the delay of a reconnect timer created by the step, if any. -/
structure StepResult where
  state : ConnState
  emitted : List RelayEvent
  scheduled : Option ℤ
deriving DecidableEq, Repr

/-- NDKRelayConnectivity.handleReconnection (connectivity.ts lines 382-424):
no-op while a reconnect timer is pending; if flapping, emit flapping and set
the FLAPPING status; otherwise compute the delay from the private connectedAt
field (60 s minus the time already elapsed since it, floored at 0) or, when
that field is unset, 5000 times (attempts + 1); then create the reconnect
timer, emit delayed-connect with that delay and record nextReconnectAt. The
attempt argument of the source only feeds the failure callback of the created
timer, modelled separately; it does not affect this step. -/
def handleReconnection (now : ℤ) (st : ConnState) : StepResult :=
  if st.reconnectTimeoutPending then ⟨st, [], none⟩
  else if isFlapping st.durations then
    ⟨{ st with status := NDKRelayStatus.FLAPPING }, [RelayEvent.flappingEmit], none⟩
  else
    let reconnectDelay : ℤ :=
      match st.connectedAt with
      | some t => max 0 (60000 - (now - t))
      | none => 5000 * ((st.attempts : ℤ) + 1)
    ⟨{ st with reconnectTimeoutPending := true,
               nextReconnectAt := some (now + reconnectDelay) },
     [RelayEvent.delayedConnect reconnectDelay],
     some reconnectDelay⟩

/-- NDKRelayConnectivity.connect (connectivity.ts lines 65-99) specialised to
a WebSocket constructor that throws, with the default reconnect = true: both
timeouts are cleared, the attempt counter is incremented, the status moves to
CONNECTING or RECONNECTING and then, in the catch block, to DISCONNECTED, and
handleReconnection(0) runs before the exception is rethrown to the caller. -/
def connectCtorThrows (now : ℤ) (st : ConnState) : StepResult :=
  let st1 := { st with reconnectTimeoutPending := false,
                       attempts := st.attempts + 1,
                       status := NDKRelayStatus.DISCONNECTED }
  handleReconnection now st1

/-- The delay the failure callback of a reconnect timer uses to schedule the
follow-up handleReconnection(attempt + 1) (connectivity.ts line 412): the
source text (1000 * (attempt + 1)) ^ 4 is JavaScript bitwise xor with 4, not
exponentiation. -/
def xorBackoffDelay (attempt : ℕ) : ℕ := Nat.xor (1000 * (attempt + 1)) 4

/-- NDKRelayConnectivity.disconnect (connectivity.ts lines 108-116): status is
set to DISCONNECTING, then ws.close() is attempted; only if close throws does
the catch set the status to DISCONNECTED. -/
def disconnect (closeThrows : Bool) (st : ConnState) : ConnState :=
  let st1 := { st with status := NDKRelayStatus.DISCONNECTING }
  if closeThrows then { st1 with status := NDKRelayStatus.DISCONNECTED } else st1

/-- updateConnectionStats.disconnected (connectivity.ts lines 532-543): when a
session was open, push its duration and trim the list to the most recent 100
entries, then clear the stats connectedAt field. -/
def updateStatsDisconnected (now : ℤ) (st : ConnState) : ConnState :=
  match st.statsConnectedAt with
  | some t =>
      let ds := st.durations ++ [((now - t : ℤ) : ℚ)]
      let ds := if ds.length > 100 then ds.tail else ds
      { st with durations := ds, statsConnectedAt := none }
  | none => { st with statsConnectedAt := none }

/-- NDKRelayConnectivity.onDisconnect (connectivity.ts lines 162-172): update
the session stats; only when the status is CONNECTED set it to DISCONNECTED
and run handleReconnection; always emit disconnect. -/
def onDisconnect (now : ℤ) (st : ConnState) : StepResult :=
  let st1 := updateStatsDisconnected now st
  if st1.status = NDKRelayStatus.CONNECTED then
    let r := handleReconnection now { st1 with status := NDKRelayStatus.DISCONNECTED }
    { r with emitted := r.emitted ++ [RelayEvent.disconnectEmit] }
  else
    ⟨st1, [RelayEvent.disconnectEmit], none⟩

/-- C4. Whenever handleReconnection actually schedules a reconnect (no timer
already pending and the connection not classified as flapping), the scheduled
delay is max(0, 60000 - (now - connectedAt)) when a connectedAt timestamp
exists and 5000 * (attempts + 1) otherwise; delayed-connect is emitted with
exactly this delay, and nextReconnectAt is set to now plus this delay. -/
theorem c4_reconnect_delay :
    ∀ (now : ℤ) (st : ConnState),
      st.reconnectTimeoutPending = false →
      isFlapping st.durations = false →
      ((handleReconnection now st).scheduled =
          some (match st.connectedAt with
                | some t => max 0 (60000 - (now - t))
                | none => 5000 * ((st.attempts : ℤ) + 1)) ∧
        (handleReconnection now st).emitted =
          [RelayEvent.delayedConnect
            (match st.connectedAt with
             | some t => max 0 (60000 - (now - t))
             | none => 5000 * ((st.attempts : ℤ) + 1))] ∧
        (handleReconnection now st).state.nextReconnectAt =
          some (now + (match st.connectedAt with
                       | some t => max 0 (60000 - (now - t))
                       | none => 5000 * ((st.attempts : ℤ) + 1)))) := by
  intro now st hp hf
  simp [handleReconnection, hp, hf]

/-- Witness for C4: a state with an empty durations list (not flapping), no
pending timer, a connectedAt of 10 and now = 20 schedules a reconnect in
59990 ms, emits delayed-connect 59990 and records nextReconnectAt 60010. -/
theorem c4_reconnect_delay_witness :
    (handleReconnection 20
        ⟨NDKRelayStatus.DISCONNECTED, false, 3, 1, [], none, some 10, none⟩).scheduled =
      some 59990 ∧
    (handleReconnection 20
        ⟨NDKRelayStatus.DISCONNECTED, false, 3, 1, [], none, some 10, none⟩).state.nextReconnectAt =
      some 60010 := by
  have h := c4_reconnect_delay 20
    ⟨NDKRelayStatus.DISCONNECTED, false, 3, 1, [], none, some 10, none⟩ rfl (by decide)
  exact ⟨by rw [h.1]; decide, by rw [h.2.2]; decide⟩

/-- C5. In the always-failing cascade the code diverges from the claim: after
every failed connect attempt, whatever the value of the attempt counter (in
particular after the fifth), connect's catch block runs handleReconnection(0)
and schedules yet another reconnect timer, with delay 5000 * (attempts + 1)
computed after the counter was already incremented (so the first delay is
10000 ms, not 5000 ms, and the cascade never stops); the follow-up delay of
the timer's failure callback is (1000 * (attempt + 1)) xor 4, which is
1000 * (attempt + 1) + 4 rather than 1000 * (attempt + 1), and that follow-up
is a no-op anyway because a reconnect timer is pending by the time it runs. -/
theorem c5_reconnect_cascade :
    (∀ (now : ℤ) (st : ConnState), st.durations = [] → st.connectedAt = none →
      (connectCtorThrows now st).scheduled = some (5000 * ((st.attempts : ℤ) + 2))) ∧
    (∀ (now : ℤ) (st : ConnState), st.reconnectTimeoutPending = true →
      handleReconnection now st = ⟨st, [], none⟩) ∧
    (∀ attempt : ℕ, attempt < 5 → xorBackoffDelay attempt = 1000 * (attempt + 1) + 4) := by
  refine ⟨?_, ?_, ?_⟩
  · intro now st hd hc
    have hflap : isFlapping ([] : List ℚ) = false := by decide
    simp [connectCtorThrows, handleReconnection, hd, hc, hflap]
    ring
  · intro now st hp
    simp [handleReconnection, hp]
  · decide

/-- Witness for C5: with the attempt counter already at 5 (all five attempts
spent) a further failing connect still schedules a reconnect, 35000 ms out,
and the first follow-up delay is 1004 ms, not 1000 ms. -/
theorem c5_reconnect_cascade_witness :
    (connectCtorThrows 0
        ⟨NDKRelayStatus.RECONNECTING, true, 5, 0, [], none, none, none⟩).scheduled =
      some 35000 ∧
    xorBackoffDelay 0 = 1004 := by
  have h := c5_reconnect_cascade.1 0
    ⟨NDKRelayStatus.RECONNECTING, true, 5, 0, [], none, none, none⟩ rfl rfl
  exact ⟨by rw [h]; decide, c5_reconnect_cascade.2.2 0 (by decide)⟩

/-- Counterexample for C6: the claim says the status becomes DISCONNECTED when
the socket-close event arrives after disconnect(); in the code onDisconnect
only moves to DISCONNECTED from CONNECTED, so after disconnect() set the
status to DISCONNECTING the close event leaves it at DISCONNECTING. Concrete
run from a connected relay. -/
theorem c6_disconnect_counterexample :
    (onDisconnect 5 (disconnect false
        ⟨NDKRelayStatus.CONNECTED, false, 1, 1, [], none, none, none⟩)).state.status ≠
      NDKRelayStatus.DISCONNECTED ∧
    (onDisconnect 5 (disconnect false
        ⟨NDKRelayStatus.CONNECTED, false, 1, 1, [], none, none, none⟩)).state.status =
      NDKRelayStatus.DISCONNECTING := by
  decide

/-- C6 as amended. From every state, disconnect() sets the status to
DISCONNECTING; when the subsequent socket-close event arrives the status
remains DISCONNECTING (onDisconnect transitions to DISCONNECTED only when the
close arrives while CONNECTED), and no reconnect is scheduled: the close
handler does not reach handleReconnection and creates no reconnect timer. -/
theorem c6_disconnect_no_reconnect :
    ∀ (now : ℤ) (st : ConnState),
      (disconnect false st).status = NDKRelayStatus.DISCONNECTING ∧
      (onDisconnect now (disconnect false st)).state.status =
        NDKRelayStatus.DISCONNECTING ∧
      (onDisconnect now (disconnect false st)).scheduled = none ∧
      (onDisconnect now (disconnect false st)).state.reconnectTimeoutPending =
        st.reconnectTimeoutPending := by
  intro now st
  refine ⟨rfl, ?_, ?_, ?_⟩ <;>
    simp [onDisconnect, disconnect, updateStatsDisconnected] <;>
    cases h : st.statsConnectedAt <;> simp [h]

/-- Decidable check that p is an initial segment of s, on character lists. -/
def isPrefixOfL : List Char → List Char → Bool
  | [], _ => true
  | _ :: _, [] => false
  | a :: p, b :: s => a == b && isPrefixOfL p s

/-- All suffixes of a character list, longest first. -/
def tailsL : List Char → List (List Char)
  | [] => [[]]
  | a :: s => (a :: s) :: tailsL s

/-- JavaScript String.prototype.includes on character lists: some suffix of s
starts with pat. -/
def jsIncludes (s pat : List Char) : Bool :=
  (tailsL s).any (fun t => isPrefixOfL pat t)

/-- The specification-side substring predicate: s contains pat contiguously. -/
def HasSubstr (pat s : List Char) : Prop :=
  ∃ l r, s = l ++ pat ++ r

theorem isPrefixOfL_iff (p s : List Char) :
    isPrefixOfL p s = true ↔ ∃ r, s = p ++ r := by
  induction p generalizing s with
  | nil => simp [isPrefixOfL]
  | cons a p ih =>
    cases s with
    | nil => simp [isPrefixOfL]
    | cons b s =>
      simp only [isPrefixOfL, Bool.and_eq_true, beq_iff_eq, ih]
      constructor
      · rintro ⟨rfl, r, rfl⟩
        exact ⟨r, rfl⟩
      · rintro ⟨r, h⟩
        cases h
        exact ⟨rfl, r, rfl⟩

theorem mem_tailsL (t s : List Char) : t ∈ tailsL s ↔ ∃ l, s = l ++ t := by
  induction s with
  | nil =>
    constructor
    · intro h
      have ht : t = [] := by simpa [tailsL] using h
      exact ⟨[], by simp [ht]⟩
    · rintro ⟨l, h⟩
      have h2 := List.append_eq_nil.mp h.symm
      simp [tailsL, h2.2]
  | cons a s ih =>
    constructor
    · intro h
      rcases (by simpa [tailsL] using h : t = a :: s ∨ t ∈ tailsL s) with rfl | ht
      · exact ⟨[], rfl⟩
      · obtain ⟨l, rfl⟩ := ih.mp ht
        exact ⟨a :: l, rfl⟩
    · rintro ⟨l, h⟩
      cases l with
      | nil =>
        simp only [List.nil_append] at h
        simp [tailsL, h]
      | cons x l =>
        simp only [List.cons_append, List.cons.injEq] at h
        have hm : t ∈ tailsL s := ih.mpr ⟨l, h.2⟩
        simp [tailsL, hm]

/-- jsIncludes computes exactly the substring predicate. -/
theorem jsIncludes_iff (s pat : List Char) :
    jsIncludes s pat = true ↔ HasSubstr pat s := by
  simp only [jsIncludes, List.any_eq_true, HasSubstr]
  constructor
  · rintro ⟨t, ht, hp⟩
    obtain ⟨l, rfl⟩ := (mem_tailsL t s).mp ht
    obtain ⟨r, rfl⟩ := (isPrefixOfL_iff pat t).mp hp
    exact ⟨l, r, (List.append_assoc l pat r).symm⟩
  · rintro ⟨l, r, rfl⟩
    exact ⟨pat ++ r, (mem_tailsL _ _).mpr ⟨l, List.append_assoc l pat r⟩,
      (isPrefixOfL_iff _ _).mpr ⟨r, rfl⟩⟩

/-- Result of NDKRelayConnectivity.onNotice: whether disconnect() was called,
the delay of the connect() that was scheduled (if any), and the notice texts
emitted on the relay emitter. -/
structure NoticeResult where
  disconnected : Bool
  scheduledConnectDelay : Option ℕ
  noticeEmitted : List (List Char)
deriving DecidableEq, Repr

/-- NDKRelayConnectivity.onNotice (connectivity.ts lines 353-370): when the
notice text contains the substring of characters double-o-space-m-a-n-y or
the substring a-x-i-m-u-m, disconnect and schedule connect() 2000 ms later;
in every case emit the notice event with the text. -/
def onNotice (notice : List Char) : NoticeResult :=
  if jsIncludes notice "oo many".toList || jsIncludes notice "aximum".toList then
    { disconnected := true, scheduledConnectDelay := some 2000,
      noticeEmitted := [notice] }
  else
    { disconnected := false, scheduledConnectDelay := none,
      noticeEmitted := [notice] }

/-- C7. For every inbound NOTICE text the notice event is emitted with that
text, and the connection disconnects and schedules a connect() 2000 ms later
exactly when the text contains the substring double-o-space-m-a-n-y or the
substring a-x-i-m-u-m (case-sensitive containment). -/
theorem onNotice_eq_pos (notice : List Char)
    (h : (jsIncludes notice "oo many".toList || jsIncludes notice "aximum".toList) = true) :
    onNotice notice = ⟨true, some 2000, [notice]⟩ := by
  unfold onNotice
  rw [if_pos h]

theorem onNotice_eq_neg (notice : List Char)
    (h : (jsIncludes notice "oo many".toList || jsIncludes notice "aximum".toList) = false) :
    onNotice notice = ⟨false, none, [notice]⟩ := by
  unfold onNotice
  rw [if_neg (fun hc => by rw [h] at hc; exact absurd hc (by decide))]

theorem c7_onNotice_spec :
    ∀ notice : List Char,
      (onNotice notice).noticeEmitted = [notice] ∧
      (((onNotice notice).disconnected = true ∧
          (onNotice notice).scheduledConnectDelay = some 2000) ↔
        (HasSubstr "oo many".toList notice ∨ HasSubstr "aximum".toList notice)) ∧
      (¬(HasSubstr "oo many".toList notice ∨ HasSubstr "aximum".toList notice) →
        (onNotice notice).disconnected = false ∧
          (onNotice notice).scheduledConnectDelay = none) := by
  intro notice
  cases h : (jsIncludes notice "oo many".toList || jsIncludes notice "aximum".toList) with
  | true =>
    have hsub : HasSubstr "oo many".toList notice ∨ HasSubstr "aximum".toList notice := by
      rcases Bool.or_eq_true _ _ |>.mp h with h1 | h1
      · exact Or.inl ((jsIncludes_iff _ _).mp h1)
      · exact Or.inr ((jsIncludes_iff _ _).mp h1)
    rw [onNotice_eq_pos notice h]
    exact ⟨rfl, ⟨fun _ => hsub, fun _ => ⟨rfl, rfl⟩⟩, fun hc => absurd hsub hc⟩
  | false =>
    have hsub : ¬(HasSubstr "oo many".toList notice ∨ HasSubstr "aximum".toList notice) := by
      rintro (h1 | h1)
      · have hA := (jsIncludes_iff notice ("oo many".toList)).mpr h1
        rw [hA, Bool.true_or] at h
        exact absurd h (by decide)
      · have hB := (jsIncludes_iff notice ("aximum".toList)).mpr h1
        rw [hB, Bool.or_true] at h
        exact absurd h (by decide)
    rw [onNotice_eq_neg notice h]
    refine ⟨rfl, ?_, fun _ => ⟨rfl, rfl⟩⟩
    constructor
    · rintro ⟨h1, -⟩
      cases h1
    · intro hc
      exact absurd hc hsub

/-- Witness for C7: the notice Too many concurrent subs triggers the
self-defense path (disconnect plus a 2000 ms reconnect) and is emitted. -/
theorem c7_onNotice_spec_witness :
    (onNotice "Too many concurrent subs".toList).disconnected = true ∧
    (onNotice "Too many concurrent subs".toList).scheduledConnectDelay = some 2000 ∧
    (onNotice "Too many concurrent subs".toList).noticeEmitted =
      ["Too many concurrent subs".toList] := by
  have h := c7_onNotice_spec "Too many concurrent subs".toList
  have htrig := h.2.1.mpr
    (Or.inl ⟨"T".toList, " concurrent subs".toList, by decide⟩)
  exact ⟨htrig.1, htrig.2, h.1⟩

/-- State of an ECMAScript promise. Invoking its resolution functions settles
it only while it is pending. -/
inductive PromiseState where
  | pending
  | resolved (reason : String)
  | rejected (errReason : String)
deriving DecidableEq, Repr

/-- Settling a promise: the first settlement wins, later ones are no-ops. -/
def settle (p : PromiseState) (v : PromiseState) : PromiseState :=
  if p = PromiseState.pending then v else p

/-- The slice of NDKRelaySubscription that onMessage touches: the filter set
(abstracted to filter identifiers, matching an abstracted event through the
matchFilters collaborator passed as a function) and the closed flag. -/
structure Sub where
  filters : List ℕ
  closed : Bool
deriving DecidableEq, Repr

/-- The slice of the connection state that onMessage and publish read and
write. The three correlation registries are association lists with Map.set
and Map.delete semantics; publishPromises tracks, per event id, the promise
that publish (or auth) returned, so that settling behaviour is observable. -/
structure MsgConnState where
  status : NDKRelayStatus
  openSubs : List (String × Sub)
  openCountRequests : List String
  openEventPublishes : List String
  publishPromises : List (String × PromiseState)
deriving DecidableEq, Repr

/-- Map.get on an association list. -/
def lookupA {α : Type} (k : String) : List (String × α) → Option α
  | [] => none
  | (k2, v) :: rest => if k2 = k then some v else lookupA k rest

/-- Map.delete on a key list. -/
def removeKey (k : String) (l : List String) : List String :=
  l.filter (fun x => x ≠ k)

/-- Map.delete on an association list. -/
def removeKeyA {α : Type} (k : String) (l : List (String × α)) :
    List (String × α) :=
  l.filter (fun e => e.1 ≠ k)

/-- Invoke the stored resolver for key k: its promise is settled to v. -/
def settleAt (k : String) (v : PromiseState) (l : List (String × PromiseState)) :
    List (String × PromiseState) :=
  l.map (fun e => if e.1 = k then (e.1, settle e.2 v) else e)

/-- so.closed = true on the subscription registered under k. -/
def setSubClosed (k : String) (l : List (String × Sub)) : List (String × Sub) :=
  l.map (fun e => if e.1 = k then (e.1, { e.2 with closed := true }) else e)

theorem not_mem_removeKey_self (k : String) (l : List String) :
    k ∉ removeKey k l := by
  simp [removeKey, List.mem_filter]

theorem lookupA_settleAt_head (k : String) (v p : PromiseState)
    (rest : List (String × PromiseState)) :
    lookupA k (settleAt k v ((k, p) :: rest)) = some (settle p v) := by
  show lookupA k
    ((if (k, p).1 = k then ((k, p).1, settle (k, p).2 v) else (k, p)) ::
      settleAt k v rest) = some (settle p v)
  rw [if_pos rfl]
  show (if k = k then some (settle p v) else lookupA k (settleAt k v rest)) =
    some (settle p v)
  rw [if_pos rfl]

/-- NDKRelayConnectivity.publish (connectivity.ts lines 463-469): create a
pending promise, register its resolver in openEventPublishes under the event
id, then hand the serialized EVENT frame to send; the frame transmission is
an effect on the socket, external to this state record. Map.set semantics:
an earlier entry under the same id is replaced. -/
def publish (st : MsgConnState) (eventId : String) : MsgConnState :=
  { st with
      openEventPublishes := eventId :: removeKey eventId st.openEventPublishes,
      publishPromises :=
        (eventId, PromiseState.pending) :: removeKeyA eventId st.publishPromises }

/-- An inbound WebSocket message, after the JSON.parse attempt: parse failure,
a parse to something that is not an array or to an empty array (whose first
element is undefined and matches no switch case), an array with an unknown
verb, or one of the seven known frames. -/
inductive InboundMessage where
  | invalidJson
  | nonArray
  | emptyArray
  | unknownVerb (verb : String)
  | eventFrame (subId : String) (ev : ℕ)
  | countFrame (countId : String) (count : ℕ)
  | eoseFrame (subId : String)
  | okFrame (eventId : String) (okFlag : Bool) (reason : String)
  | closedFrame (subId : String) (reason : String)
  | noticeFrame (text : List Char)
  | authFrame (challenge : String)
deriving DecidableEq, Repr

/-- Observable effects of processing one inbound message. -/
inductive MsgEffect where
  | subOnEvent (subId : String) (ev : ℕ)
  | countResolved (countId : String) (count : ℕ)
  | subEose (subId : String)
  | publishSettled (eventId : String)
  | subClosed (subId : String) (reason : String)
  | noticeEmit (text : List Char)
  | disconnectCalled
  | connectScheduled (delayMs : ℕ)
  | authRequested (challenge : String)
  | logError (errName : String)
deriving DecidableEq, Repr

/-- The try block of NDKRelayConnectivity.onMessage (connectivity.ts lines
183-238). An Except.error is a thrown exception: JSON.parse throwing on
invalid input, the EVENT case reading so.filters off an undefined lookup
result, or the OK case calling ep.resolve or ep.reject on an undefined
lookup result (the OK and EVENT cases have no existence guard, unlike COUNT,
EOSE and CLOSED). The NOTICE case runs onNotice, whose synchronous body may
call disconnect() and schedule a connect; the AUTH case hands the challenge
to the asynchronous onAuthRequested handler, opaque to these claims. -/
def onMessageE (matchFn : List ℕ → ℕ → Bool) (st : MsgConnState) :
    InboundMessage → Except String (MsgConnState × List MsgEffect)
  | InboundMessage.invalidJson => Except.error "SyntaxError"
  | InboundMessage.nonArray => Except.ok (st, [])
  | InboundMessage.emptyArray => Except.ok (st, [])
  | InboundMessage.unknownVerb _ => Except.ok (st, [])
  | InboundMessage.eventFrame subId ev =>
      match lookupA subId st.openSubs with
      | none => Except.error "TypeError"
      | some so =>
          if matchFn so.filters ev then Except.ok (st, [MsgEffect.subOnEvent subId ev])
          else Except.ok (st, [])
  | InboundMessage.countFrame cid c =>
      if cid ∈ st.openCountRequests then
        Except.ok ({ st with openCountRequests := removeKey cid st.openCountRequests },
          [MsgEffect.countResolved cid c])
      else Except.ok (st, [])
  | InboundMessage.eoseFrame subId =>
      match lookupA subId st.openSubs with
      | none => Except.ok (st, [])
      | some _ => Except.ok (st, [MsgEffect.subEose subId])
  | InboundMessage.okFrame eid okFlag reason =>
      if eid ∈ st.openEventPublishes then
        let v := if okFlag then PromiseState.resolved reason
                 else PromiseState.rejected reason
        Except.ok ({ st with
            publishPromises := settleAt eid v st.publishPromises,
            openEventPublishes := removeKey eid st.openEventPublishes },
          [MsgEffect.publishSettled eid])
      else Except.error "TypeError"
  | InboundMessage.closedFrame subId reason =>
      match lookupA subId st.openSubs with
      | none => Except.ok (st, [])
      | some _ =>
          Except.ok ({ st with openSubs := setSubClosed subId st.openSubs },
            [MsgEffect.subClosed subId reason])
  | InboundMessage.noticeFrame text =>
      let r := onNotice text
      if r.disconnected then
        Except.ok ({ st with status := NDKRelayStatus.DISCONNECTING },
          [MsgEffect.disconnectCalled, MsgEffect.connectScheduled 2000,
           MsgEffect.noticeEmit text])
      else Except.ok (st, [MsgEffect.noticeEmit text])
  | InboundMessage.authFrame challenge =>
      Except.ok (st, [MsgEffect.authRequested challenge])

/-- NDKRelayConnectivity.onMessage wrapped in its catch block (connectivity.ts
lines 240-243): every exception of the try block is logged and swallowed, the
state is left as it was, and nothing propagates to the caller; the wrapper is
a total function. -/
def onMessage (matchFn : List ℕ → ℕ → Bool) (st : MsgConnState)
    (m : InboundMessage) : MsgConnState × List MsgEffect :=
  match onMessageE matchFn st m with
  | Except.ok r => r
  | Except.error e => (st, [MsgEffect.logError e])

/-- C1. After publish registers a pending resolver under the event id, the
first inbound OK frame for that id settles the promise exactly once, to
resolved-with-reason when the flag is true and rejected-with-reason when it
is false, and removes the registry entry, so that a subsequent OK frame for
the same id finds no resolver (the handler throws into the catch block and
only logs) and leaves the settled promise and the whole state unchanged. -/
theorem c1_publish_ok_settles_once :
    ∀ (matchFn : List ℕ → ℕ → Bool) (st : MsgConnState) (eid : String)
      (b : Bool) (r : String) (b2 : Bool) (r2 : String),
      lookupA eid
          (onMessage matchFn (publish st eid)
            (InboundMessage.okFrame eid b r)).1.publishPromises =
        some (if b then PromiseState.resolved r else PromiseState.rejected r) ∧
      eid ∉ (onMessage matchFn (publish st eid)
          (InboundMessage.okFrame eid b r)).1.openEventPublishes ∧
      onMessage matchFn
          (onMessage matchFn (publish st eid) (InboundMessage.okFrame eid b r)).1
          (InboundMessage.okFrame eid b2 r2) =
        ((onMessage matchFn (publish st eid) (InboundMessage.okFrame eid b r)).1,
          [MsgEffect.logError "TypeError"]) := by
  intro matchFn st eid b r b2 r2
  have hmem : eid ∈ (publish st eid).openEventPublishes := by simp [publish]
  have h1 : onMessage matchFn (publish st eid) (InboundMessage.okFrame eid b r) =
      ({ publish st eid with
          publishPromises :=
            settleAt eid
              (if b then PromiseState.resolved r else PromiseState.rejected r)
              (publish st eid).publishPromises,
          openEventPublishes := removeKey eid (publish st eid).openEventPublishes },
        [MsgEffect.publishSettled eid]) := by
    simp [onMessage, onMessageE, hmem]
  refine ⟨?_, ?_, ?_⟩
  · rw [h1]
    exact lookupA_settleAt_head eid _ PromiseState.pending
      (removeKeyA eid st.publishPromises)
  · rw [h1]
    exact not_mem_removeKey_self eid _
  · rw [h1]
    have hnot : eid ∉ removeKey eid (publish st eid).openEventPublishes :=
      not_mem_removeKey_self eid _
    simp [onMessage, onMessageE, hnot]

/-- C10. The message handler never propagates an exception: invalid JSON,
non-array data, empty arrays and unknown verbs are dropped (at most logged)
with the state unchanged, and EVENT or OK frames whose correlation id has no
registered subscription or pending publish make the try block throw into the
catch, which logs and leaves the state (including the status: the connection
stays live) unchanged; uncorrelated COUNT, EOSE and CLOSED frames are dropped
silently by their existence guards. -/
theorem c10_onMessage_never_throws :
    ∀ (matchFn : List ℕ → ℕ → Bool) (st : MsgConnState),
      onMessage matchFn st InboundMessage.invalidJson =
        (st, [MsgEffect.logError "SyntaxError"]) ∧
      onMessage matchFn st InboundMessage.nonArray = (st, []) ∧
      onMessage matchFn st InboundMessage.emptyArray = (st, []) ∧
      (∀ v, onMessage matchFn st (InboundMessage.unknownVerb v) = (st, [])) ∧
      (∀ subId ev, lookupA subId st.openSubs = none →
        onMessage matchFn st (InboundMessage.eventFrame subId ev) =
          (st, [MsgEffect.logError "TypeError"])) ∧
      (∀ eid b r, eid ∉ st.openEventPublishes →
        onMessage matchFn st (InboundMessage.okFrame eid b r) =
          (st, [MsgEffect.logError "TypeError"])) ∧
      (∀ cid c, cid ∉ st.openCountRequests →
        onMessage matchFn st (InboundMessage.countFrame cid c) = (st, [])) ∧
      (∀ subId, lookupA subId st.openSubs = none →
        onMessage matchFn st (InboundMessage.eoseFrame subId) = (st, [])) ∧
      (∀ subId reason, lookupA subId st.openSubs = none →
        onMessage matchFn st (InboundMessage.closedFrame subId reason) = (st, [])) := by
  intro matchFn st
  refine ⟨rfl, rfl, rfl, fun v => rfl, ?_, ?_, ?_, ?_, ?_⟩
  · intro subId ev h
    simp [onMessage, onMessageE, h]
  · intro eid b r h
    simp [onMessage, onMessageE, h]
  · intro cid c h
    simp [onMessage, onMessageE, h]
  · intro subId h
    simp [onMessage, onMessageE, h]
  · intro subId reason h
    simp [onMessage, onMessageE, h]

/-- Witness for C10: on a live connection with empty registries, an OK frame
for an unknown id and an invalid-JSON message are both swallowed with the
state unchanged. -/
theorem c10_onMessage_never_throws_witness :
    onMessage (fun _ _ => true)
        (⟨NDKRelayStatus.CONNECTED, [], [], [], []⟩ : MsgConnState)
        (InboundMessage.okFrame "E" true "stored") =
      ((⟨NDKRelayStatus.CONNECTED, [], [], [], []⟩ : MsgConnState),
        [MsgEffect.logError "TypeError"]) ∧
    onMessage (fun _ _ => true)
        (⟨NDKRelayStatus.CONNECTED, [], [], [], []⟩ : MsgConnState)
        InboundMessage.invalidJson =
      ((⟨NDKRelayStatus.CONNECTED, [], [], [], []⟩ : MsgConnState),
        [MsgEffect.logError "SyntaxError"]) := by
  have h := c10_onMessage_never_throws (fun _ _ => true)
    (⟨NDKRelayStatus.CONNECTED, [], [], [], []⟩ : MsgConnState)
  exact ⟨h.2.2.2.2.2.1 "E" true "stored" (by simp), h.1⟩

/-- Split a character list at every occurrence of sep, the way the JavaScript
String.prototype.split splits on a one-character separator string. -/
def splitOnChar (sep : Char) : List Char → List (List Char)
  | [] => [[]]
  | a :: s =>
      if a = sep then [] :: splitOnChar sep s
      else
        match splitOnChar sep s with
        | [] => [[a]]
        | t :: ts => (a :: t) :: ts

/-- The identity fields of NDKNip46Signer. Strings are character lists. -/
structure Nip46State where
  remotePubkey : Option (List Char)
  token : Option (List Char)
  nip05 : Option (List Char)
deriving DecidableEq, Repr

/-- The constructor of NDKNip46Signer (nip46/index.ts lines 61-96) restricted
to the three identity fields: a token containing a hash sign splits into an
npub part (decoded through the external bech32 collaborator, npubDecode) and
a one-time password; a token starting with the four characters n-p-u-b is
decoded as a bare npub; a token containing a dot is kept as a human-readable
nip05 identifier with the remote pubkey left unset; anything else is taken
as a raw hex pubkey. -/
def signerInit (npubDecode : List Char → List Char)
    (tokenOrRemoteUser : List Char) : Nip46State :=
  if tokenOrRemoteUser.contains '#' then
    let parts := splitOnChar '#' tokenOrRemoteUser
    { remotePubkey := some (npubDecode (parts.headD [])),
      token := some ((parts.drop 1).headD []),
      nip05 := none }
  else if isPrefixOfL "npub".toList tokenOrRemoteUser then
    { remotePubkey := some (npubDecode tokenOrRemoteUser),
      token := none, nip05 := none }
  else if tokenOrRemoteUser.contains '.' then
    { remotePubkey := none, token := none, nip05 := some tokenOrRemoteUser }
  else
    { remotePubkey := some tokenOrRemoteUser, token := none, nip05 := none }

/-- Transport actions of the signer session, in the order performed. -/
inductive SignerAction where
  | subscribe (kinds : List ℕ) (pTags : List (List Char))
  | wait (ms : ℕ)
  | sendRequest (remote : List Char) (method : List Char)
      (params : List (List Char)) (kind : ℕ)
deriving DecidableEq, Repr

/-- NDKNip46Signer.blockUntilReady (nip46/index.ts lines 105-154) as the
ordered list of transport actions of its synchronous path, or the error it
throws. When nip05 is set and remotePubkey is not, line 110 creates the
NDKUser.fromNip05 lookup promise but does not await it: by the ECMAScript
job queue its then-callback, which would populate remotePubkey, cannot run
before the synchronous remainder of the method, so the check on line 118
reads the prior remotePubkey value; the lookup collaborator is therefore a
parameter whose result cannot reach the synchronous outcome. The token is
appended to the connect params only when it is truthy, that is, nonempty. -/
def blockUntilReady (lookup : List Char → Option (List Char))
    (localPubkey : List Char) (st : Nip46State) :
    Except (List Char) (List SignerAction) :=
  match st.remotePubkey with
  | none => Except.error "Remote pubkey not set".toList
  | some rpk =>
      let connectParams :=
        localPubkey :: (match st.token with
          | some t => if t = [] then [] else [t]
          | none => [])
      Except.ok
        [SignerAction.subscribe [24133] [localPubkey],
         SignerAction.wait 100,
         SignerAction.sendRequest rpk "connect".toList connectParams 24133]

/-- A decrypted kind-24133 response payload as delivered to the callback. -/
structure RpcResponse where
  result : List Char
  errField : Option (List Char)
deriving DecidableEq, Repr

/-- How the promise returned by blockUntilReady is completed. -/
inductive ConnectOutcome where
  | resolvedUser (user : List Char)
  | rejectedErr (err : Option (List Char))
deriving DecidableEq, Repr

/-- The connect response callback (nip46/index.ts lines 144-150): resolve the
blockUntilReady promise with the remote user when the response result is the
three characters a-c-k, otherwise reject it with the response error field. -/
def connectCallback (remoteUser : List Char) (resp : RpcResponse) :
    ConnectOutcome :=
  if resp.result = "ack".toList then ConnectOutcome.resolvedUser remoteUser
  else ConnectOutcome.rejectedErr resp.errField

/-- C8. With a known remote pubkey, blockUntilReady first opens the single
long-lived kind-24133 subscription on the local pubkey, then waits 100 ms,
then sends a connect request whose params are the local pubkey with the
stored one-time-password token appended when present (and just the local
pubkey when there is none), and the returned promise resolves with the
remote user exactly when the correlated response result is ack, rejecting
with the response error field otherwise. -/
theorem c8_blockUntilReady_handshake :
    ∀ (lookup : List Char → Option (List Char)) (localPub rpk : List Char)
      (st : Nip46State), st.remotePubkey = some rpk →
      (∀ t, st.token = some t → t ≠ [] →
        blockUntilReady lookup localPub st =
          Except.ok
            [SignerAction.subscribe [24133] [localPub],
             SignerAction.wait 100,
             SignerAction.sendRequest rpk "connect".toList [localPub, t] 24133]) ∧
      (st.token = none →
        blockUntilReady lookup localPub st =
          Except.ok
            [SignerAction.subscribe [24133] [localPub],
             SignerAction.wait 100,
             SignerAction.sendRequest rpk "connect".toList [localPub] 24133]) ∧
      (∀ ru resp,
        (connectCallback ru resp = ConnectOutcome.resolvedUser ru ↔
          resp.result = "ack".toList) ∧
        (resp.result ≠ "ack".toList →
          connectCallback ru resp = ConnectOutcome.rejectedErr resp.errField)) := by
  intro lookup localPub rpk st hrp
  refine ⟨?_, ?_, ?_⟩
  · intro t htok ht
    simp [blockUntilReady, hrp, htok, ht]
  · intro htok
    simp [blockUntilReady, hrp, htok]
  · intro ru resp
    by_cases hres : resp.result = "ack".toList
    · have hcc : connectCallback ru resp = ConnectOutcome.resolvedUser ru := by
        unfold connectCallback
        rw [if_pos hres]
      exact ⟨⟨fun _ => hres, fun _ => hcc⟩, fun hc => absurd hres hc⟩
    · have hcc : connectCallback ru resp = ConnectOutcome.rejectedErr resp.errField := by
        unfold connectCallback
        rw [if_neg hres]
      refine ⟨⟨?_, fun hc => absurd hc hres⟩, fun _ => hcc⟩
      intro hc
      rw [hcc] at hc
      cases hc

/-- Witness for C8: a session built from the token npub1xyz hash otp42 (with
the bech32 decoding collaborator taken as the identity) subscribes, waits
100 ms and sends connect with params local pubkey and otp42; an ack response
resolves with the remote user. -/
theorem c8_blockUntilReady_handshake_witness :
    blockUntilReady (fun _ => none) "localpub".toList
        (signerInit (fun s => s) "npub1xyz#otp42".toList) =
      Except.ok
        [SignerAction.subscribe [24133] ["localpub".toList],
         SignerAction.wait 100,
         SignerAction.sendRequest "npub1xyz".toList "connect".toList
           ["localpub".toList, "otp42".toList] 24133] ∧
    connectCallback "remoteuser".toList ⟨"ack".toList, none⟩ =
      ConnectOutcome.resolvedUser "remoteuser".toList := by
  have h := c8_blockUntilReady_handshake (fun _ => none) "localpub".toList
    "npub1xyz".toList (signerInit (fun s => s) "npub1xyz#otp42".toList) (by decide)
  exact ⟨h.1 "otp42".toList (by decide) (by decide),
    (h.2.2 "remoteuser".toList ⟨"ack".toList, none⟩).1.mpr (by decide)⟩

/-- C9. The code diverges from the claim: for a signer session constructed
from a human-readable identifier (a token containing a dot), blockUntilReady
throws Remote pubkey not set even when the identifier-lookup collaborator
resolves a pubkey, because the lookup promise created on line 110 is never
awaited and remotePubkey is still unset when the line-118 check runs. -/
theorem c9_nip05_lookup_ignored :
    ∀ (npubDecode : List Char → List Char)
      (lookup : List Char → Option (List Char)) (localPub pk : List Char),
      lookup "alice@example.com".toList = some pk →
      (signerInit npubDecode "alice@example.com".toList).nip05 =
        some "alice@example.com".toList ∧
      (signerInit npubDecode "alice@example.com".toList).remotePubkey = none ∧
      blockUntilReady lookup localPub
          (signerInit npubDecode "alice@example.com".toList) =
        Except.error "Remote pubkey not set".toList := by
  intro npubDecode lookup localPub pk hlk
  exact ⟨rfl, rfl, rfl⟩

/-- Witness for C9: with a lookup that resolves the identifier, the handshake
still throws Remote pubkey not set. -/
theorem c9_nip05_lookup_ignored_witness :
    blockUntilReady (fun _ => some "resolvedpk".toList) "localpub".toList
        (signerInit (fun s => s) "alice@example.com".toList) =
      Except.error "Remote pubkey not set".toList :=
  (c9_nip05_lookup_ignored (fun s => s) (fun _ => some "resolvedpk".toList)
    "localpub".toList "resolvedpk".toList rfl).2.2

end NDK
